import Mathlib

/-!
Verification of the webhook authentication and parsing pipeline of the
xrocket-pay TypeScript SDK (`src/webhook-utils.ts`, `src/types/webhook.ts`).

The embedding is shallow: TypeScript functions become Lean functions over
`String` / `JsValue` (a model of JavaScript runtime values produced by
`JSON.parse`, extended with `undefined`), 32-bit machine words become `Nat`
with explicit `% 2 ^ 32`, and thrown errors become `Except` results.
The Node `crypto` primitives (SHA-256, HMAC-SHA-256, lowercase hex digests)
are modelled bit-for-bit from FIPS 180-4 / RFC 2104, validated below on
standard test vectors.  JSON numbers are modelled as integers (fractional
literals are outside the model); this only shrinks the domain of bodies the
model can parse, never the behaviour on parsed values.
-/

/-! ### SHA-256 (FIPS 180-4), over byte lists -/

def rotr32 (x n : Nat) : Nat :=
  ((x >>> n) ||| (x <<< (32 - n))) % 2 ^ 32

def sSig0 (x : Nat) : Nat := rotr32 x 7 ^^^ rotr32 x 18 ^^^ (x >>> 3)

def sSig1 (x : Nat) : Nat := rotr32 x 17 ^^^ rotr32 x 19 ^^^ (x >>> 10)

def bSig0 (x : Nat) : Nat := rotr32 x 2 ^^^ rotr32 x 13 ^^^ rotr32 x 22

def bSig1 (x : Nat) : Nat := rotr32 x 6 ^^^ rotr32 x 11 ^^^ rotr32 x 25

def chFn (x y z : Nat) : Nat := (x &&& y) ^^^ ((x ^^^ 0xffffffff) &&& z)

def majFn (x y z : Nat) : Nat := (x &&& y) ^^^ (x &&& z) ^^^ (y &&& z)

def sha256K : List Nat :=
  [0x428a2f98, 0x71374491, 0xb5c0fbcf, 0xe9b5dba5, 0x3956c25b, 0x59f111f1, 0x923f82a4, 0xab1c5ed5]
  ++ [0xd807aa98, 0x12835b01, 0x243185be, 0x550c7dc3, 0x72be5d74, 0x80deb1fe, 0x9bdc06a7, 0xc19bf174]
  ++ [0xe49b69c1, 0xefbe4786, 0x0fc19dc6, 0x240ca1cc, 0x2de92c6f, 0x4a7484aa, 0x5cb0a9dc, 0x76f988da]
  ++ [0x983e5152, 0xa831c66d, 0xb00327c8, 0xbf597fc7, 0xc6e00bf3, 0xd5a79147, 0x06ca6351, 0x14292967]
  ++ [0x27b70a85, 0x2e1b2138, 0x4d2c6dfc, 0x53380d13, 0x650a7354, 0x766a0abb, 0x81c2c92e, 0x92722c85]
  ++ [0xa2bfe8a1, 0xa81a664b, 0xc24b8b70, 0xc76c51a3, 0xd192e819, 0xd6990624, 0xf40e3585, 0x106aa070]
  ++ [0x19a4c116, 0x1e376c08, 0x2748774c, 0x34b0bcb5, 0x391c0cb3, 0x4ed8aa4a, 0x5b9cca4f, 0x682e6ff3]
  ++ [0x748f82ee, 0x78a5636f, 0x84c87814, 0x8cc70208, 0x90befffa, 0xa4506ceb, 0xbef9a3f7, 0xc67178f2]

structure Sha256State where
  a : Nat
  b : Nat
  c : Nat
  d : Nat
  e : Nat
  f : Nat
  g : Nat
  h : Nat

def sha256Init : Sha256State :=
  ⟨0x6a09e667, 0xbb67ae85, 0x3c6ef372, 0xa54ff53a,
   0x510e527f, 0x9b05688c, 0x1f83d9ab, 0x5be0cd19⟩

def sha256Round (s : Sha256State) (k w : Nat) : Sha256State :=
  let t1 := (s.h + bSig1 s.e + chFn s.e s.f s.g + k + w) % 2 ^ 32
  let t2 := (bSig0 s.a + majFn s.a s.b s.c) % 2 ^ 32
  ⟨(t1 + t2) % 2 ^ 32, s.a, s.b, s.c, (s.d + t1) % 2 ^ 32, s.e, s.f, s.g⟩

/-- Big-endian bytes (most significant first) of a 32-bit word. -/
def be32 (w : Nat) : List Nat :=
  [w >>> 24 % 256, w >>> 16 % 256, w >>> 8 % 256, w % 256]

/-- Big-endian bytes of a 64-bit length field. -/
def be64 (w : Nat) : List Nat :=
  [w >>> 56 % 256, w >>> 48 % 256, w >>> 40 % 256, w >>> 32 % 256,
   w >>> 24 % 256, w >>> 16 % 256, w >>> 8 % 256, w % 256]

/-- Pack bytes into big-endian 32-bit words, 4 bytes per word. -/
def bytesToWords : List Nat → List Nat
  | b0 :: b1 :: b2 :: b3 :: rest =>
      (b0 <<< 24 ||| b1 <<< 16 ||| b2 <<< 8 ||| b3) :: bytesToWords rest
  | _ => []

/-- Extend the 16 block words to the 64-entry message schedule. -/
def sha256Schedule (ws : List Nat) : List Nat :=
  (List.range 48).foldl
    (fun acc _ =>
      let n := acc.length
      acc ++ [(sSig1 (acc.getD (n - 2) 0) + acc.getD (n - 7) 0
               + sSig0 (acc.getD (n - 15) 0) + acc.getD (n - 16) 0) % 2 ^ 32])
    ws

def sha256Compress (s : Sha256State) (block : List Nat) : Sha256State :=
  let ws := sha256Schedule (bytesToWords block)
  let t := (sha256K.zip ws).foldl (fun st kw => sha256Round st kw.1 kw.2) s
  ⟨(s.a + t.a) % 2 ^ 32, (s.b + t.b) % 2 ^ 32, (s.c + t.c) % 2 ^ 32,
   (s.d + t.d) % 2 ^ 32, (s.e + t.e) % 2 ^ 32, (s.f + t.f) % 2 ^ 32,
   (s.g + t.g) % 2 ^ 32, (s.h + t.h) % 2 ^ 32⟩

/-- Append the 0x80 marker, zero padding and 64-bit bit-length. -/
def sha256Pad (msg : List Nat) : List Nat :=
  let z := (55 + 64 - msg.length % 64) % 64
  msg ++ [0x80] ++ List.replicate z 0 ++ be64 (8 * msg.length)

/-- Split a list into chunks of `n` bytes, with explicit fuel. -/
def chunksAux (n : Nat) : Nat → List Nat → List (List Nat)
  | 0, _ => []
  | _, [] => []
  | fuel + 1, l => l.take n :: chunksAux n fuel (l.drop n)

def chunks (n : Nat) (l : List Nat) : List (List Nat) :=
  chunksAux n l.length l

def sha256 (msg : List Nat) : List Nat :=
  let fin := (chunks 64 (sha256Pad msg)).foldl sha256Compress sha256Init
  be32 fin.a ++ be32 fin.b ++ be32 fin.c ++ be32 fin.d
    ++ be32 fin.e ++ be32 fin.f ++ be32 fin.g ++ be32 fin.h

/-! ### HMAC-SHA-256 (RFC 2104) -/

def hmacSha256 (key msg : List Nat) : List Nat :=
  let k0 := if 64 < key.length then sha256 key else key
  let kp := k0 ++ List.replicate (64 - k0.length) 0
  sha256 ((kp.map (· ^^^ 0x5c)) ++ sha256 ((kp.map (· ^^^ 0x36)) ++ msg))

/-! ### UTF-8 encoding and lowercase hex rendering -/

def utf8EncodeChar (c : Char) : List Nat :=
  let n := c.toNat
  if n < 0x80 then [n]
  else if n < 0x800 then
    [0xc0 ||| (n >>> 6), 0x80 ||| (n &&& 0x3f)]
  else if n < 0x10000 then
    [0xe0 ||| (n >>> 12), 0x80 ||| ((n >>> 6) &&& 0x3f), 0x80 ||| (n &&& 0x3f)]
  else
    [0xf0 ||| (n >>> 18), 0x80 ||| ((n >>> 12) &&& 0x3f),
     0x80 ||| ((n >>> 6) &&& 0x3f), 0x80 ||| (n &&& 0x3f)]

def utf8Encode (s : String) : List Nat :=
  s.data.foldr (fun c acc => utf8EncodeChar c ++ acc) []

def hexDigitChar (n : Nat) : Char :=
  if n < 10 then Char.ofNat (48 + n) else Char.ofNat (87 + n)

def bytesToHexChars (l : List Nat) : List Char :=
  l.foldr (fun b acc => hexDigitChar (b / 16 % 16) :: hexDigitChar (b % 16) :: acc) []

def bytesToHexStr (l : List Nat) : String :=
  String.mk (bytesToHexChars l)

/-! ### Signature verification (`verifyWebhookSignature`) -/

/-- Model of `verifyWebhookSignature(body, signature, token)` from `webhook-utils.ts`:
reject if any argument is empty (JS falsiness of strings), otherwise derive
the key as SHA-256 of the token, HMAC-SHA-256 the body with it, hex-encode in
lowercase, and compare to the supplied signature for exact string equality.
The `try/catch` of the source has no effect in the model: the hash model is
total, so no exception can arise; the function is total here as there. -/
def verifyWebhookSignature (body signature token : String) : Bool :=
  if body == "" || signature == "" || token == "" then false
  else
    let secret := sha256 (utf8Encode token)
    let hmac := bytesToHexStr (hmacSha256 secret (utf8Encode body))
    hmac == signature

/-! ### JavaScript runtime values

The type `JsValue` models the values `JSON.parse` can produce, extended with
`undefined` (the result of accessing a missing property).  JSON numbers are
modelled as integers. -/

inductive JsValue where
  | undefined
  | null
  | bool (b : Bool)
  | num (n : Int)
  | str (s : String)
  | arr (elems : List JsValue)
  | obj (fields : List (String × JsValue))

/-- JavaScript truthiness: `undefined`, `null`, `false`, `0`, `""` are falsy;
every array and object (even empty) is truthy. -/
def jsTruthy : JsValue → Bool
  | .undefined => false
  | .null => false
  | .bool b => b
  | .num n => n != 0
  | .str s => s != ""
  | .arr _ => true
  | .obj _ => true

/-- `typeof v === 'object'`: true for `null`, arrays and plain objects. -/
def typeofIsObject : JsValue → Bool
  | .null => true
  | .arr _ => true
  | .obj _ => true
  | _ => false

/-- Last binding wins, as for duplicate keys in a JS object literal. -/
def lookupLast (fs : List (String × JsValue)) (k : String) : Option JsValue :=
  match fs with
  | [] => none
  | p :: rest =>
    match lookupLast rest k with
    | some v => some v
    | none => if p.1 = k then some p.2 else none

/-- Digit-string to `Nat`, for array index access; structural so that it
reduces in the kernel. -/
def strIndex? (k : String) : Option Nat :=
  if k.data ≠ [] ∧ k.data.all Char.isDigit then
    some (k.data.foldl (fun acc c => 10 * acc + (c.toNat - 48)) 0)
  else none

/-- JS property access `v[k]`; `undefined` when missing.  On arrays, numeric
strings index the elements and `"length"` is the length property. -/
def getProp : JsValue → String → JsValue
  | .obj fs, k => (lookupLast fs k).getD .undefined
  | .arr xs, k =>
      match strIndex? k with
      | some i => xs.getD i .undefined
      | none => if k = "length" then .num xs.length else .undefined
  | _, _ => .undefined

/-- The JS `in` operator (only ever applied to objects/arrays in the code). -/
def hasProp : JsValue → String → Bool
  | .obj fs, k => fs.any (fun p => p.1 == k)
  | .arr xs, k =>
      match strIndex? k with
      | some i => decide (i < xs.length)
      | none => k == "length"
  | _, _ => false

/-- JS strict equality `v === s` against a string literal. -/
def jsStrictEqStr : JsValue → String → Bool
  | .str t, s => t == s
  | _, _ => false

/-! The function `jsStringify` is the JS template-literal string conversion, as used in
the unsupported-type error message of `parseWebhookPayload`. -/

mutual

def jsStringify : JsValue → String
  | .undefined => "undefined"
  | .null => "null"
  | .bool true => "true"
  | .bool false => "false"
  | .num n => toString n
  | .str s => s
  | .arr xs => jsStringifyElems xs
  | .obj _ => "[object Object]"

/-- `Array.prototype.join(",")`: `null`/`undefined` elements render empty. -/
def jsStringifyElem : JsValue → String
  | .undefined => ""
  | .null => ""
  | v => jsStringify v

def jsStringifyElems : List JsValue → String
  | [] => ""
  | [x] => jsStringifyElem x
  | x :: y :: xs => jsStringifyElem x ++ "," ++ jsStringifyElems (y :: xs)

end

/-! ### A model of `JSON.parse`

Fuel-indexed recursive-descent parser.  It accepts the JSON the claims range
over (objects, arrays, strings with the common escapes, integers, literals);
a body it rejects is treated as invalid JSON by the model. -/

def isWsChar (c : Char) : Bool := c == ' ' || c == '\n' || c == '\t' || c == '\r'

def skipWs : List Char → List Char
  | [] => []
  | c :: cs => if isWsChar c then skipWs cs else c :: cs

def unescapeChar : Char → Option Char
  | 'n' => some '\n'
  | 't' => some '\t'
  | 'r' => some '\r'
  | 'b' => some (Char.ofNat 8)
  | 'f' => some (Char.ofNat 12)
  | '"' => some '"'
  | '\\' => some '\\'
  | '/' => some '/'
  | _ => none

def parseStrChars : Nat → List Char → Option (List Char × List Char)
  | 0, _ => none
  | _, [] => none
  | fuel + 1, c :: cs =>
    if c == '"' then some ([], cs)
    else if c == '\\' then
      match cs with
      | [] => none
      | e :: cs2 =>
        match unescapeChar e with
        | none => none
        | some ec =>
          match parseStrChars fuel cs2 with
          | none => none
          | some (s, rest) => some (ec :: s, rest)
    else
      match parseStrChars fuel cs with
      | none => none
      | some (s, rest) => some (c :: s, rest)

def takeDigits : List Char → List Char × List Char
  | [] => ([], [])
  | c :: cs =>
    if c.isDigit then
      let (ds, rest) := takeDigits cs
      (c :: ds, rest)
    else ([], c :: cs)

def digitsVal (ds : List Char) : Nat :=
  ds.foldl (fun acc c => 10 * acc + (c.toNat - 48)) 0

def dropLit : List Char → List Char → Option (List Char)
  | [], cs => some cs
  | _ :: _, [] => none
  | e :: es, c :: cs => if c == e then dropLit es cs else none

mutual

def parseJsonValue : Nat → List Char → Option (JsValue × List Char)
  | 0, _ => none
  | fuel + 1, cs =>
    match skipWs cs with
    | [] => none
    | c :: rest =>
      if c == 'n' then (dropLit ['u', 'l', 'l'] rest).map (fun r => (.null, r))
      else if c == 't' then (dropLit ['r', 'u', 'e'] rest).map (fun r => (.bool true, r))
      else if c == 'f' then (dropLit ['a', 'l', 's', 'e'] rest).map (fun r => (.bool false, r))
      else if c == '"' then
        match parseStrChars (rest.length + 1) rest with
        | none => none
        | some (s, r) => some (.str (String.mk s), r)
      else if c == '-' then
        match takeDigits rest with
        | ([], _) => none
        | (ds, r) => some (.num (-(digitsVal ds : Int)), r)
      else if c.isDigit then
        let (ds, r) := takeDigits (c :: rest)
        some (.num (digitsVal ds), r)
      else if c == '[' then
        match skipWs rest with
        | ']' :: r => some (.arr [], r)
        | rest2 => parseJsonElems fuel rest2 []
      else if c == '{' then
        match skipWs rest with
        | '}' :: r => some (.obj [], r)
        | rest2 => parseJsonMembers fuel rest2 []
      else none

def parseJsonElems : Nat → List Char → List JsValue →
    Option (JsValue × List Char)
  | 0, _, _ => none
  | fuel + 1, cs, acc =>
    match parseJsonValue fuel cs with
    | none => none
    | some (v, rest) =>
      match skipWs rest with
      | ',' :: r => parseJsonElems fuel r (acc ++ [v])
      | ']' :: r => some (.arr (acc ++ [v]), r)
      | _ => none

def parseJsonMembers : Nat → List Char → List (String × JsValue) →
    Option (JsValue × List Char)
  | 0, _, _ => none
  | fuel + 1, cs, acc =>
    match skipWs cs with
    | '"' :: rest =>
      match parseStrChars (rest.length + 1) rest with
      | none => none
      | some (kcs, r1) =>
        match skipWs r1 with
        | ':' :: r2 =>
          match parseJsonValue fuel r2 with
          | none => none
          | some (v, r3) =>
            match skipWs r3 with
            | ',' :: r4 => parseJsonMembers fuel r4 (acc ++ [(String.mk kcs, v)])
            | '}' :: r4 => some (.obj (acc ++ [(String.mk kcs, v)]), r4)
            | _ => none
        | _ => none
    | _ => none

end

/-- Model of `JSON.parse`: parse one value, require only whitespace after. -/
def jsonParse (s : String) : Option JsValue :=
  match parseJsonValue (2 * s.data.length + 2) s.data with
  | none => none
  | some (v, rest) => if skipWs rest = [] then some v else none

/-! ### The webhook pipeline (`webhook-utils.ts`, `types/webhook.ts`) -/

/-- Type guard from `types/webhook.ts`, namely `webhook?.type === 'invoicePay'`. -/
def isInvoicePaymentWebhook (w : JsValue) : Bool :=
  jsStrictEqStr (getProp w "type") "invoicePay"

def requiredDataFields : List String :=
  ["id", "amount", "currency", "status", "payment"]

def requiredPaymentFields : List String :=
  ["userId", "paymentNum", "paymentAmount", "paid"]

/-- The post-`JSON.parse` validation cascade of `parseWebhookPayload`,
transcribed check for check from the source; errors carry the thrown
message.  The required-field loops become `List.find?`, which returns the
first field whose `in`-test fails, as the `for` loop throws on it. -/
def validateEnvelope (parsed : JsValue) : Except String JsValue :=
  if !(jsTruthy parsed && typeofIsObject parsed) then
    .error "Webhook payload must be an object"
  else if !(jsTruthy (getProp parsed "type")) || !(jsTruthy (getProp parsed "timestamp")) then
    .error "Webhook payload missing required fields: type, timestamp"
  else if !(isInvoicePaymentWebhook parsed) then
    .error ("Unsupported webhook type: " ++ jsStringify (getProp parsed "type"))
  else if !(jsTruthy (getProp parsed "data") && typeofIsObject (getProp parsed "data")) then
    .error "Webhook payload missing or invalid data field"
  else
    match requiredDataFields.find? (fun f => !(hasProp (getProp parsed "data") f)) with
    | some f => .error ("Webhook data missing required field: " ++ f)
    | none =>
      if !(jsTruthy (getProp (getProp parsed "data") "payment")
            && typeofIsObject (getProp (getProp parsed "data") "payment")) then
        .error "Webhook data missing or invalid payment field"
      else
        match requiredPaymentFields.find?
            (fun f => !(hasProp (getProp (getProp parsed "data") "payment") f)) with
        | some f => .error ("Webhook payment data missing required field: " ++ f)
        | none => .ok parsed

/-- Model of `parseWebhookPayload(body)`: empty-body check, `JSON.parse` with syntax
errors remapped, then the validation cascade.  The final
`return parsed as InvoicePaymentWebhook` is a type-level cast only, so the
success value is the parsed value itself. -/
def parseWebhookPayload (body : String) : Except String JsValue :=
  if body == "" then .error "Webhook body is empty"
  else
    match jsonParse body with
    | none => .error "Invalid JSON in webhook body"
    | some parsed => validateEnvelope parsed

/-- The two error classes of `webhook-utils.ts`, each carrying its message. -/
inductive WebhookError where
  | signature (msg : String)
  | parse (msg : String)
deriving DecidableEq

/-- Model of `verifyAndParseWebhook(body, signature, secret)`: throw
`WebhookSignatureError` unless the signature verifies, then delegate to
`parseWebhookPayload`, whose `WebhookParseError` propagates. -/
def verifyAndParseWebhook (body signature secret : String) :
    Except WebhookError JsValue :=
  if !(verifyWebhookSignature body signature secret) then
    .error (.signature "Invalid webhook signature")
  else
    (parseWebhookPayload body).mapError .parse

/-- Model of `isInvoicePaid(webhook)`: `webhook.data.status === 'paid'`. -/
def isInvoicePaid (webhook : JsValue) : Bool :=
  jsStrictEqStr (getProp (getProp webhook "data") "status") "paid"

/-- JS `x || undefined`: keep a truthy value, collapse anything falsy
(including a present empty string) to `undefined`. -/
def jsOrUndef (v : JsValue) : JsValue :=
  if jsTruthy v then v else .undefined

/-- The summary record returned by `extractPaymentInfo`; each field holds the
JS value placed there, `JsValue.undefined` meaning the property is undefined. -/
structure PaymentInfo where
  invoiceId : JsValue
  amount : JsValue
  currency : JsValue
  status : JsValue
  userId : JsValue
  paymentAmount : JsValue
  paymentAmountReceived : JsValue
  paymentNumber : JsValue
  paidAt : JsValue
  comment : JsValue
  payload : JsValue
  description : JsValue
  activationsLeft : JsValue
  totalActivations : JsValue

/-- Model of `extractPaymentInfo(webhook)`, field for field from the source; the three
`|| undefined` normalisations become `jsOrUndef`. -/
def extractPaymentInfo (webhook : JsValue) : PaymentInfo :=
  let data := getProp webhook "data"
  { invoiceId := getProp data "id"
    amount := getProp data "amount"
    currency := getProp data "currency"
    status := getProp data "status"
    userId := getProp (getProp data "payment") "userId"
    paymentAmount := getProp (getProp data "payment") "paymentAmount"
    paymentAmountReceived := getProp (getProp data "payment") "paymentAmountReceived"
    paymentNumber := getProp (getProp data "payment") "paymentNum"
    paidAt := getProp (getProp data "payment") "paid"
    comment := jsOrUndef (getProp (getProp data "payment") "comment")
    payload := jsOrUndef (getProp data "payload")
    description := jsOrUndef (getProp data "description")
    activationsLeft := getProp data "activationsLeft"
    totalActivations := getProp data "totalActivations" }

/-! ### Spec-shaped validation cascade

`parseWebhookPayloadSpec` restates the parser as the specification words it:
the ordered list of named checks of design §4.2 / claim C5, each
short-circuiting with its own error, returning the parsed envelope only when
every check passes.  It is compared against the source-shaped
`parseWebhookPayload` by theorem. -/

def allFieldsPresent (v : JsValue) (fs : List String) : Bool :=
  fs.all (fun f => hasProp v f)

def firstMissingField (v : JsValue) (fs : List String) : Option String :=
  fs.find? (fun f => !(hasProp v f))

def checkObjectShape (v : JsValue) : Bool :=
  jsTruthy v && typeofIsObject v

def checkEnvelopeFields (v : JsValue) : Bool :=
  jsTruthy (getProp v "type") && jsTruthy (getProp v "timestamp")

def checkInvoicePayTag (v : JsValue) : Bool :=
  jsStrictEqStr (getProp v "type") "invoicePay"

def checkDataShape (v : JsValue) : Bool :=
  jsTruthy (getProp v "data") && typeofIsObject (getProp v "data")

def checkPaymentShape (v : JsValue) : Bool :=
  jsTruthy (getProp (getProp v "data") "payment")
    && typeofIsObject (getProp (getProp v "data") "payment")

def parseWebhookPayloadSpec (body : String) : Except String JsValue :=
  if body == "" then .error "Webhook body is empty"
  else
    match jsonParse body with
    | none => .error "Invalid JSON in webhook body"
    | some v =>
      if !(checkObjectShape v) then
        .error "Webhook payload must be an object"
      else if !(checkEnvelopeFields v) then
        .error "Webhook payload missing required fields: type, timestamp"
      else if !(checkInvoicePayTag v) then
        .error ("Unsupported webhook type: " ++ jsStringify (getProp v "type"))
      else if !(checkDataShape v) then
        .error "Webhook payload missing or invalid data field"
      else if !(allFieldsPresent (getProp v "data") requiredDataFields) then
        .error ("Webhook data missing required field: "
          ++ (firstMissingField (getProp v "data") requiredDataFields).getD "")
      else if !(checkPaymentShape v) then
        .error "Webhook data missing or invalid payment field"
      else if !(allFieldsPresent (getProp (getProp v "data") "payment")
                  requiredPaymentFields) then
        .error ("Webhook payment data missing required field: "
          ++ (firstMissingField (getProp (getProp v "data") "payment")
                requiredPaymentFields).getD "")
      else .ok v

/-- The conjunction of the post-parse checks: `validateEnvelope v = .ok v`
exactly when this holds (proved below). -/
def envelopeChecks (v : JsValue) : Bool :=
  checkObjectShape v && checkEnvelopeFields v && checkInvoicePayTag v
    && checkDataShape v && allFieldsPresent (getProp v "data") requiredDataFields
    && checkPaymentShape v
    && allFieldsPresent (getProp (getProp v "data") "payment") requiredPaymentFields

/-- Non-object JSON values in the sense of claim C4, arrays excluded:
`null` and the scalars. -/
def isScalarOrNull : JsValue → Bool
  | .null => true
  | .bool _ => true
  | .num _ => true
  | .str _ => true
  | _ => false

/-! ### Rebinding a present field (for claim C9)

The function `overwriteField` models `o[k] = x` for a key that is already present: every
binding of `k` gets the new value, the key set is unchanged.  The claim only
rebinds required (hence present) fields. -/

def overwriteField : JsValue → String → JsValue → JsValue
  | .obj fs, k, x => .obj (fs.map (fun p => if p.1 = k then (p.1, x) else p))
  | v, _, _ => v

def updateDataField (w : JsValue) (f : String) (x : JsValue) : JsValue :=
  overwriteField w "data" (overwriteField (getProp w "data") f x)

def updatePaymentField (w : JsValue) (f : String) (x : JsValue) : JsValue :=
  overwriteField w "data"
    (overwriteField (getProp w "data") "payment"
      (overwriteField (getProp (getProp w "data") "payment") f x))

/-! ### Concrete envelopes used as witnesses -/

def samplePayment : List (String × JsValue) :=
  [("userId", .num 42), ("paymentNum", .num 1),
   ("paymentAmount", .num 5), ("paid", .str "2024-01-01T00:05:00Z")]

def sampleEnvelope : JsValue :=
  .obj [("type", .str "invoicePay"), ("timestamp", .str "2024-01-01T00:00:00Z"),
    ("data", .obj [("id", .num 1), ("amount", .num 5),
      ("currency", .str "TONCOIN"), ("status", .str "paid"),
      ("payment", .obj samplePayment)])]

/-- Valid envelope whose payment carries a present but empty `comment`. -/
def envelopeEmptyComment : JsValue :=
  .obj [("type", .str "invoicePay"), ("timestamp", .str "2024-01-01T00:00:00Z"),
    ("data", .obj [("id", .num 1), ("amount", .num 5),
      ("currency", .str "TONCOIN"), ("status", .str "paid"),
      ("payment", .obj (samplePayment ++ [("comment", .str "")]))])]

/-- Valid envelope whose payment carries a non-empty `comment`. -/
def envelopeWithComment : JsValue :=
  .obj [("type", .str "invoicePay"), ("timestamp", .str "2024-01-01T00:00:00Z"),
    ("data", .obj [("id", .num 1), ("amount", .num 5),
      ("currency", .str "TONCOIN"), ("status", .str "paid"),
      ("payment", .obj (samplePayment ++ [("comment", .str "thanks")]))])]

/-! Sanity checks of the crypto model against published test vectors
(FIPS 180-4 / RFC 4231). -/

set_option maxRecDepth 100000 in
theorem sha256_abc_vector :
    bytesToHexStr (sha256 (utf8Encode "abc")) =
      "ba7816bf8f01cfea414140de5dae2223b00361a396177a9cb410ff61f20015ad" := by
  rfl

set_option maxRecDepth 100000 in
theorem hmac_rfc4231_case2 :
    bytesToHexStr (hmacSha256 (utf8Encode "Jefe")
        (utf8Encode "what do ya want for nothing?")) =
      "5bdcc146bf60754e6a042426089575c75a003f089d2739839dec58b964ec3843" := by
  rfl


/-! ### Helper lemmas -/

lemma sha256_length (m : List Nat) : (sha256 m).length = 32 := by
  simp [sha256, be32]

lemma hmacSha256_length (k m : List Nat) : (hmacSha256 k m).length = 32 := by
  simp [hmacSha256, sha256_length]

lemma bytesToHexStr_ne_empty (l : List Nat) (h : l ≠ []) : bytesToHexStr l ≠ "" := by
  cases l with
  | nil => exact absurd rfl h
  | cons b t => simp [bytesToHexStr, bytesToHexChars, String.ext_iff]

lemma hmac_hex_ne_empty (k m : List Nat) : bytesToHexStr (hmacSha256 k m) ≠ "" := by
  apply bytesToHexStr_ne_empty
  intro hnil
  have := hmacSha256_length k m
  rw [hnil] at this
  simp at this

lemma jsonParse_empty : jsonParse "" = none := rfl

lemma getProp_arr_type (xs : List JsValue) : getProp (.arr xs) "type" = .undefined := rfl

lemma getProp_arr_timestamp (xs : List JsValue) : getProp (.arr xs) "timestamp" = .undefined := rfl

lemma hasProp_arr_id (xs : List JsValue) : hasProp (.arr xs) "id" = false := rfl

lemma hasProp_arr_userId (xs : List JsValue) : hasProp (.arr xs) "userId" = false := rfl

lemma parse_of_jsonParse_some (body : String) (v : JsValue) (h : jsonParse body = some v) :
    parseWebhookPayload body = validateEnvelope v := by
  have hb : (body == "") = false := by
    rcases eq_or_ne body "" with rfl | hne
    · rw [jsonParse_empty] at h
      exact absurd h (by simp)
    · exact beq_eq_false_iff_ne.mpr hne
  unfold parseWebhookPayload
  rw [hb, h]
  simp

lemma firstMissing_none_iff (v : JsValue) (fs : List String) :
    firstMissingField v fs = none ↔ allFieldsPresent v fs = true := by
  simp [firstMissingField, allFieldsPresent, List.find?_eq_none, List.all_eq_true]

lemma missing_match_eq_ite (v : JsValue) (fs : List String) (pre : String)
    (cont : Except String JsValue) :
    (match fs.find? (fun f => !(hasProp v f)) with
     | some f => Except.error (pre ++ f)
     | none => cont) =
      (if !(allFieldsPresent v fs) then
        Except.error (pre ++ (firstMissingField v fs).getD "")
      else cont) := by
  rcases hfind : fs.find? (fun f => !(hasProp v f)) with _ | f
  · have hall : allFieldsPresent v fs = true :=
      (firstMissing_none_iff v fs).mp hfind
    simp [hall]
  · have hall : allFieldsPresent v fs = false := by
      by_contra hx
      have : allFieldsPresent v fs = true := by
        revert hx
        cases allFieldsPresent v fs <;> simp
      rw [← firstMissing_none_iff] at this
      rw [firstMissingField] at this
      rw [hfind] at this
      exact absurd this (by simp)
    simp [hall, firstMissingField, hfind]

lemma jsOrUndef_eq_undef_iff (v : JsValue) :
    jsOrUndef v = .undefined ↔ jsTruthy v = false := by
  cases hv : jsTruthy v <;> simp [jsOrUndef, hv]
  intro h
  rw [h] at hv
  simp [jsTruthy] at hv

lemma jsOrUndef_of_truthy (v : JsValue) (h : jsTruthy v = true) : jsOrUndef v = v := by
  simp [jsOrUndef, h]

lemma lookupLast_overwrite_self (fs : List (String × JsValue)) (k : String) (x : JsValue) :
    lookupLast (fs.map (fun p => if p.1 = k then (p.1, x) else p)) k
      = (lookupLast fs k).map (fun _ => x) := by
  induction fs with
  | nil => rfl
  | cons p rest ih =>
    simp only [List.map_cons, lookupLast, ih]
    rcases lookupLast rest k with _ | v
    · by_cases hp : p.1 = k <;> simp [hp]
    · simp

lemma lookupLast_overwrite_ne (fs : List (String × JsValue)) (k j : String) (x : JsValue)
    (h : j ≠ k) :
    lookupLast (fs.map (fun p => if p.1 = k then (p.1, x) else p)) j = lookupLast fs j := by
  induction fs with
  | nil => rfl
  | cons p rest ih =>
    simp only [List.map_cons, lookupLast, ih]
    rcases lookupLast rest j with _ | v
    · by_cases hp : p.1 = k
      · simp [hp, Ne.symm h]
      · simp [hp]
    · simp

lemma hasProp_eq_lookupLast_isSome (fs : List (String × JsValue)) (k : String) :
    hasProp (.obj fs) k = (lookupLast fs k).isSome := by
  induction fs with
  | nil => rfl
  | cons p rest ih =>
    simp only [hasProp] at ih
    simp only [hasProp, List.any_cons, lookupLast, ih]
    rcases lookupLast rest k with _ | v
    · by_cases hp : p.1 = k <;> simp [hp]
    · simp

lemma hasProp_overwrite (v : JsValue) (k : String) (x : JsValue) (j : String) :
    hasProp (overwriteField v k x) j = hasProp v j := by
  cases v with
  | obj fs =>
    simp only [overwriteField, hasProp]
    induction fs with
    | nil => rfl
    | cons p rest ih =>
      simp only [List.map_cons, List.any_cons, ih]
      congr 1
      by_cases hp : p.1 = k <;> simp [hp]
  | undefined => rfl
  | null => rfl
  | bool b => rfl
  | num n => rfl
  | str s => rfl
  | arr xs => rfl

lemma getProp_overwrite_ne (v : JsValue) (k j : String) (x : JsValue) (h : j ≠ k) :
    getProp (overwriteField v k x) j = getProp v j := by
  cases v with
  | obj fs => simp only [overwriteField, getProp, lookupLast_overwrite_ne fs k j x h]
  | undefined => rfl
  | null => rfl
  | bool b => rfl
  | num n => rfl
  | str s => rfl
  | arr xs => rfl

lemma getProp_overwrite_self (fs : List (String × JsValue)) (k : String) (x : JsValue)
    (h : hasProp (.obj fs) k = true) :
    getProp (overwriteField (.obj fs) k x) k = x := by
  rw [hasProp_eq_lookupLast_isSome] at h
  simp only [overwriteField, getProp, lookupLast_overwrite_self]
  rcases hl : lookupLast fs k with _ | v
  · rw [hl] at h
    simp at h
  · simp

lemma validateEnvelope_ok_iff (v u : JsValue) :
    validateEnvelope v = .ok u ↔ (u = v ∧ envelopeChecks v = true) := by
  unfold validateEnvelope envelopeChecks checkObjectShape checkEnvelopeFields
    checkInvoicePayTag checkDataShape checkPaymentShape isInvoicePaymentWebhook
  rw [missing_match_eq_ite, missing_match_eq_ite]
  split_ifs with h1 h2 h3 h4 h5 h6 h7 <;> simp_all <;>
    first
    | exact eq_comm
    | (intros; simp_all)

lemma envelopeChecks_components (v : JsValue) (h : envelopeChecks v = true) :
    checkObjectShape v = true ∧ checkEnvelopeFields v = true ∧ checkInvoicePayTag v = true
    ∧ checkDataShape v = true
    ∧ allFieldsPresent (getProp v "data") requiredDataFields = true
    ∧ checkPaymentShape v = true
    ∧ allFieldsPresent (getProp (getProp v "data") "payment") requiredPaymentFields = true := by
  simp only [envelopeChecks, Bool.and_eq_true] at h
  tauto

lemma checks_shape_obj (v : JsValue) (h : envelopeChecks v = true) :
    ∃ fs, v = .obj fs := by
  obtain ⟨h1, h2, -⟩ := envelopeChecks_components v h
  cases v with
  | obj fs => exact ⟨fs, rfl⟩
  | arr xs =>
    rw [checkEnvelopeFields, getProp_arr_type] at h2
    simp [jsTruthy] at h2
  | undefined => simp [checkObjectShape, jsTruthy] at h1
  | null => simp [checkObjectShape, jsTruthy] at h1
  | bool b => simp [checkObjectShape, typeofIsObject] at h1
  | num n => simp [checkObjectShape, typeofIsObject] at h1
  | str s => simp [checkObjectShape, typeofIsObject] at h1

lemma checks_data_obj (v : JsValue) (h : envelopeChecks v = true) :
    ∃ ds, getProp v "data" = .obj ds := by
  obtain ⟨-, -, -, h4, h5, -⟩ := envelopeChecks_components v h
  cases hd : getProp v "data" with
  | obj ds => exact ⟨ds, rfl⟩
  | arr xs =>
    rw [hd] at h5
    simp [allFieldsPresent, requiredDataFields, hasProp_arr_id] at h5
  | undefined => rw [checkDataShape, hd] at h4; simp [jsTruthy] at h4
  | null => rw [checkDataShape, hd] at h4; simp [jsTruthy] at h4
  | bool b => rw [checkDataShape, hd] at h4; simp [typeofIsObject] at h4
  | num n => rw [checkDataShape, hd] at h4; simp [typeofIsObject] at h4
  | str s => rw [checkDataShape, hd] at h4; simp [typeofIsObject] at h4

lemma checks_payment_obj (v : JsValue) (h : envelopeChecks v = true) :
    ∃ ps, getProp (getProp v "data") "payment" = .obj ps := by
  obtain ⟨-, -, -, -, -, h6, h7⟩ := envelopeChecks_components v h
  cases hp : getProp (getProp v "data") "payment" with
  | obj ps => exact ⟨ps, rfl⟩
  | arr xs =>
    rw [hp] at h7
    simp [allFieldsPresent, requiredPaymentFields, hasProp_arr_userId] at h7
  | undefined => rw [checkPaymentShape, hp] at h6; simp [jsTruthy] at h6
  | null => rw [checkPaymentShape, hp] at h6; simp [jsTruthy] at h6
  | bool b => rw [checkPaymentShape, hp] at h6; simp [typeofIsObject] at h6
  | num n => rw [checkPaymentShape, hp] at h6; simp [typeofIsObject] at h6
  | str s => rw [checkPaymentShape, hp] at h6; simp [typeofIsObject] at h6

lemma hasProp_data_of_checks (fs : List (String × JsValue))
    (h : envelopeChecks (.obj fs) = true) : hasProp (.obj fs) "data" = true := by
  obtain ⟨-, -, -, h4, -⟩ := envelopeChecks_components _ h
  rw [hasProp_eq_lookupLast_isSome]
  rcases hl : lookupLast fs "data" with _ | v2
  · exfalso
    have hundef : getProp (.obj fs) "data" = .undefined := by simp [getProp, hl]
    rw [checkDataShape, hundef] at h4
    simp [jsTruthy] at h4
  · simp

/-! ### Claims -/

/-- C1 (counterexample): the claim quantifies over every body and secret, but
with the empty body the function returns `false` even when the supplied
signature is exactly the lowercase hex HMAC-SHA-256 of the body keyed by the
SHA-256 of the secret, because the empty-string guard rejects first. -/
theorem verify_roundtrip_false_on_empty_body :
    verifyWebhookSignature ""
      (bytesToHexStr (hmacSha256 (sha256 (utf8Encode "s")) (utf8Encode ""))) "s" = false := by
  rfl

/-- C1 (amended): for every non-empty body B and non-empty secret S, calling
`verifyWebhookSignature` with body B, signature equal to the lowercase hex
encoding of HMAC-SHA-256 keyed by SHA-256(S) applied to B, and secret S,
returns `true`. -/
theorem verify_accepts_computed_signature (B S : String) (hB : B ≠ "") (hS : S ≠ "") :
    verifyWebhookSignature B
      (bytesToHexStr (hmacSha256 (sha256 (utf8Encode S)) (utf8Encode B))) S = true := by
  have h1 : (B == "") = false := beq_eq_false_iff_ne.mpr hB
  have h3 : (S == "") = false := beq_eq_false_iff_ne.mpr hS
  have h2 : (bytesToHexStr (hmacSha256 (sha256 (utf8Encode S)) (utf8Encode B)) == "") = false :=
    beq_eq_false_iff_ne.mpr (hmac_hex_ne_empty _ _)
  unfold verifyWebhookSignature
  simp [h1, h2, h3]

/-- C1 (witness): the amended round-trip property at body "a", secret "b". -/
theorem verify_accepts_computed_signature_witness :
    verifyWebhookSignature "a"
      (bytesToHexStr (hmacSha256 (sha256 (utf8Encode "b")) (utf8Encode "a"))) "b" = true :=
  verify_accepts_computed_signature "a" "b" (by decide) (by decide)

/-- C2: `verifyWebhookSignature body signature secret` returns `true` if and
only if body, signature and secret are all non-empty and the lowercase hex
encoding of HMAC-SHA-256 of the body, keyed by the SHA-256 digest of the
secret, is exactly equal to the supplied signature string; in every other
case it returns `false`. -/
theorem verify_true_iff (b s k : String) :
    verifyWebhookSignature b s k = true ↔
      (b ≠ "" ∧ s ≠ "" ∧ k ≠ "" ∧
        bytesToHexStr (hmacSha256 (sha256 (utf8Encode k)) (utf8Encode b)) = s) := by
  unfold verifyWebhookSignature
  by_cases hb : b = "" <;> by_cases hs : s = "" <;> by_cases hk : k = "" <;>
    simp [hb, hs, hk, beq_iff_eq]

/-- C2 (witness): the characterisation instantiated at a concrete input. -/
theorem verify_true_iff_witness :
    verifyWebhookSignature "" "x" "y" = true ↔
      (("" : String) ≠ "" ∧ ("x" : String) ≠ "" ∧ ("y" : String) ≠ "" ∧
        bytesToHexStr (hmacSha256 (sha256 (utf8Encode "y")) (utf8Encode "")) = "x") :=
  verify_true_iff "" "x" "y"

/-- C3: `verifyWebhookSignature` is a total boolean function in the model (so
it terminates and never raises), and whenever the body, the signature or the
secret is the empty string it returns `false`.  The `try/catch` of the source
has nothing to convert here: the modelled hashing is total, mirroring the
policy that hashing errors become `false` rather than exceptions. -/
theorem verify_false_of_empty_input (b s k : String) (h : b = "" ∨ s = "" ∨ k = "") :
    verifyWebhookSignature b s k = false := by
  unfold verifyWebhookSignature
  rcases h with rfl | rfl | rfl <;> simp

/-- C3 (witness): the empty-body case at concrete inputs. -/
theorem verify_false_of_empty_input_witness :
    verifyWebhookSignature "" "x" "y" = false :=
  verify_false_of_empty_input "" "x" "y" (Or.inl rfl)

set_option maxRecDepth 10000 in
/-- C4 (counterexample): the body "[]" parses as JSON to an array, which is
not an object, yet `parseWebhookPayload` does not raise the not-an-object
error: in JavaScript `typeof [] === 'object'`, so the array passes the object
check and fails at the type/timestamp check instead. -/
theorem parse_array_not_object_error_cex :
    jsonParse "[]" = some (.arr [])
    ∧ parseWebhookPayload "[]"
        = .error "Webhook payload missing required fields: type, timestamp"
    ∧ parseWebhookPayload "[]" ≠ .error "Webhook payload must be an object" := by
  refine ⟨rfl, rfl, ?_⟩
  rw [show parseWebhookPayload "[]"
      = .error "Webhook payload missing required fields: type, timestamp" from rfl]
  simp

/-- C4 (amended): for every body string that parses as JSON to a scalar
(number, string, boolean) or `null`, `parseWebhookPayload` raises the parse
error identifying the not-an-object check; a body parsing to an array instead
passes that check (JS `typeof` calls arrays objects) and fails at the
type/timestamp check. -/
theorem parse_nonobject_json_behavior (body : String) (v : JsValue)
    (h : jsonParse body = some v) :
    (isScalarOrNull v = true →
      parseWebhookPayload body = .error "Webhook payload must be an object")
    ∧ (∀ xs, v = .arr xs →
      parseWebhookPayload body
        = .error "Webhook payload missing required fields: type, timestamp") := by
  rw [parse_of_jsonParse_some body v h]
  constructor
  · intro hsc
    cases v <;> simp_all [isScalarOrNull, validateEnvelope, jsTruthy, typeofIsObject]
  · rintro xs rfl
    simp [validateEnvelope, getProp_arr_type, jsTruthy, typeofIsObject]

/-- C4 (witness): the scalar body "5" is rejected by the not-an-object
check. -/
theorem parse_nonobject_json_behavior_witness :
    parseWebhookPayload "5" = .error "Webhook payload must be an object" :=
  (parse_nonobject_json_behavior "5" (.num 5) (by rfl)).1 (by rfl)

/-- C5: `parseWebhookPayload` coincides, on every body, with the
specification-shaped cascade `parseWebhookPayloadSpec` that runs the named
validation checks in the specified order, short-circuits at the first failing
check with that check's error message, and returns the full parsed envelope
exactly when all checks pass — never a partial object. -/
theorem parse_equals_spec_cascade (body : String) :
    parseWebhookPayload body = parseWebhookPayloadSpec body := by
  unfold parseWebhookPayload parseWebhookPayloadSpec
  rcases hb : body == "" with _ | _
  · rcases hj : jsonParse body with _ | v
    · rfl
    · show validateEnvelope v = _
      unfold validateEnvelope
      rw [missing_match_eq_ite, missing_match_eq_ite]
      simp only [checkObjectShape, checkEnvelopeFields, checkInvoicePayTag,
        checkDataShape, checkPaymentShape, isInvoicePaymentWebhook,
        Bool.not_and]
      simp
  · rfl

/-- C5 (witness): the coincidence at a concrete body. -/
theorem parse_equals_spec_cascade_witness :
    parseWebhookPayload "[]" = parseWebhookPayloadSpec "[]" :=
  parse_equals_spec_cascade "[]"

/-- C6: `verifyAndParseWebhook` returns the signature error whenever
verification fails — regardless of the body, so no parse error is observable
for an unauthenticated body — and otherwise returns exactly the result of
`parseWebhookPayload` on the body, parse errors propagating. -/
theorem verifyAndParse_signature_gate (b s k : String) :
    verifyAndParseWebhook b s k =
      (if verifyWebhookSignature b s k then (parseWebhookPayload b).mapError .parse
       else .error (.signature "Invalid webhook signature"))
    ∧ (verifyWebhookSignature b s k = false →
        ∀ m, verifyAndParseWebhook b s k ≠ .error (.parse m)) := by
  constructor
  · unfold verifyAndParseWebhook
    cases h : verifyWebhookSignature b s k <;> simp
  · intro hv m
    unfold verifyAndParseWebhook
    rw [hv]
    simp

/-- C6 (witness): for the empty body (whose signature never verifies), the
composed entry point does not surface the parser's empty-body error. -/
theorem verifyAndParse_signature_gate_witness :
    verifyAndParseWebhook "" "x" "y" ≠ .error (.parse "Webhook body is empty") :=
  (verifyAndParse_signature_gate "" "x" "y").2 (by rfl) "Webhook body is empty"

/-- C7: `isInvoicePaid` returns `true` exactly when the envelope's
`data.status` field is the literal string "paid"; any other status value
(e.g. "active") yields `false`.  The function is a pure function of its
argument.  The characterisation is unconditional, hence holds in particular
for every validated envelope. -/
theorem isInvoicePaid_iff_status_paid (w : JsValue) :
    isInvoicePaid w = true ↔ getProp (getProp w "data") "status" = .str "paid" := by
  unfold isInvoicePaid
  cases hst : getProp (getProp w "data") "status" <;> simp [jsStrictEqStr]

/-- C7 (witness): the sample envelope with status "paid" is paid, and the
same envelope with status rebound to "active" is not. -/
theorem isInvoicePaid_iff_status_paid_witness :
    isInvoicePaid sampleEnvelope = true
    ∧ isInvoicePaid (updateDataField sampleEnvelope "status" (.str "active")) = false := by
  constructor
  · exact (isInvoicePaid_iff_status_paid sampleEnvelope).mpr (by rfl)
  · have h := isInvoicePaid_iff_status_paid
      (updateDataField sampleEnvelope "status" (.str "active"))
    rcases hb : isInvoicePaid (updateDataField sampleEnvelope "status" (.str "active")) with _ | _
    · rfl
    · exfalso
      rw [hb] at h
      have := h.mp rfl
      rw [show getProp (getProp (updateDataField sampleEnvelope "status" (.str "active"))
          "data") "status" = .str "active" from rfl] at this
      exact absurd this (by simp)

set_option maxRecDepth 10000 in
/-- C8 (counterexample): a validated envelope whose payment carries a present
but empty-string `comment` loses it: `extractPaymentInfo` surfaces the field
as absent (`undefined`), because the source writes `comment || undefined`,
conflating a present falsy value with "not provided". -/
theorem extract_empty_comment_dropped_cex :
    validateEnvelope envelopeEmptyComment = .ok envelopeEmptyComment
    ∧ hasProp (getProp (getProp envelopeEmptyComment "data") "payment") "comment" = true
    ∧ (extractPaymentInfo envelopeEmptyComment).comment = JsValue.undefined :=
  ⟨rfl, rfl, rfl⟩

/-- C8 (amended): in the summary returned by `extractPaymentInfo`, each of
the optional fields comment, payload and description is absent exactly when
the corresponding source field is absent **or falsy** (e.g. a present empty
string); a truthy source value is carried unchanged.  Numeric fields such as
`paymentAmount` (and `invoiceId`) are copied directly without the falsy
normalisation, so a zero value is surfaced as zero, never as absent. -/
theorem extract_optional_fields_behavior (w : JsValue) :
    ((extractPaymentInfo w).comment = JsValue.undefined ↔
      jsTruthy (getProp (getProp (getProp w "data") "payment") "comment") = false)
    ∧ (jsTruthy (getProp (getProp (getProp w "data") "payment") "comment") = true →
        (extractPaymentInfo w).comment
          = getProp (getProp (getProp w "data") "payment") "comment")
    ∧ ((extractPaymentInfo w).payload = JsValue.undefined ↔
        jsTruthy (getProp (getProp w "data") "payload") = false)
    ∧ (jsTruthy (getProp (getProp w "data") "payload") = true →
        (extractPaymentInfo w).payload = getProp (getProp w "data") "payload")
    ∧ ((extractPaymentInfo w).description = JsValue.undefined ↔
        jsTruthy (getProp (getProp w "data") "description") = false)
    ∧ (jsTruthy (getProp (getProp w "data") "description") = true →
        (extractPaymentInfo w).description = getProp (getProp w "data") "description")
    ∧ (extractPaymentInfo w).paymentAmount
        = getProp (getProp (getProp w "data") "payment") "paymentAmount"
    ∧ (extractPaymentInfo w).invoiceId = getProp (getProp w "data") "id" := by
  refine ⟨?_, ?_, ?_, ?_, ?_, ?_, rfl, rfl⟩ <;>
    simp only [extractPaymentInfo, jsOrUndef_eq_undef_iff] <;>
    exact fun h => jsOrUndef_of_truthy _ h

/-- C8 (witness): a truthy comment is carried through unchanged. -/
theorem extract_optional_fields_behavior_witness :
    (extractPaymentInfo envelopeWithComment).comment = JsValue.str "thanks" := by
  rw [(extract_optional_fields_behavior envelopeWithComment).2.1 (by rfl)]
  rfl

/-- C9: the required-field checks on `data` (id, amount, currency, status)
and on `data.payment` (userId, paymentNum, paymentAmount, paid) test key
presence only, not truthiness or type: rebinding any such present field of a
validated envelope to an arbitrary value — `null`, `0`, `""` included —
leaves validation succeeding, and the returned envelope carries the rebound
value in that field.  Only `data.payment` itself is excluded, being
additionally required to be a truthy object. -/
theorem parse_required_fields_presence_only (w : JsValue) (f : String) (x : JsValue)
    (hok : validateEnvelope w = .ok w) :
    (f ∈ (["id", "amount", "currency", "status"] : List String) →
      validateEnvelope (updateDataField w f x) = .ok (updateDataField w f x)
      ∧ getProp (getProp (updateDataField w f x) "data") f = x)
    ∧ (f ∈ requiredPaymentFields →
      validateEnvelope (updatePaymentField w f x) = .ok (updatePaymentField w f x)
      ∧ getProp (getProp (getProp (updatePaymentField w f x) "data") "payment") f = x) := by
  have hc : envelopeChecks w = true := ((validateEnvelope_ok_iff w w).mp hok).2
  obtain ⟨h1, h2, h3, h4, h5, h6, h7⟩ := envelopeChecks_components w hc
  obtain ⟨fs, rfl⟩ := checks_shape_obj _ hc
  obtain ⟨ds, hds⟩ := checks_data_obj _ hc
  obtain ⟨ps, hps⟩ := checks_payment_obj _ hc
  have hdata : hasProp (.obj fs) "data" = true := hasProp_data_of_checks fs hc
  have hall5 : ∀ g ∈ requiredDataFields,
      hasProp (getProp (.obj fs) "data") g = true := by
    simpa [allFieldsPresent, List.all_eq_true] using h5
  have hall7 : ∀ g ∈ requiredPaymentFields,
      hasProp (getProp (getProp (.obj fs) "data") "payment") g = true := by
    simpa [allFieldsPresent, List.all_eq_true] using h7
  constructor
  · intro hf
    have hf_req : f ∈ requiredDataFields := by
      simp only [requiredDataFields]
      simp only [List.mem_cons, List.mem_singleton, List.not_mem_nil] at hf ⊢
      tauto
    have hf_ne_pay : ("payment" : String) ≠ f := by
      simp only [List.mem_cons, List.mem_singleton, List.not_mem_nil] at hf
      rcases hf with rfl | rfl | rfl | rfl | h
      · decide
      · decide
      · decide
      · decide
      · exact absurd h (by simp)
    have hfpres : hasProp (getProp (.obj fs) "data") f = true := hall5 f hf_req
    have e_data : getProp
        (overwriteField (.obj fs) "data" (overwriteField (getProp (.obj fs) "data") f x))
        "data" = overwriteField (getProp (.obj fs) "data") f x :=
      getProp_overwrite_self fs "data" _ hdata
    have e_type : getProp
        (overwriteField (.obj fs) "data" (overwriteField (getProp (.obj fs) "data") f x))
        "type" = getProp (.obj fs) "type" :=
      getProp_overwrite_ne _ _ _ _ (by decide)
    have e_ts : getProp
        (overwriteField (.obj fs) "data" (overwriteField (getProp (.obj fs) "data") f x))
        "timestamp" = getProp (.obj fs) "timestamp" :=
      getProp_overwrite_ne _ _ _ _ (by decide)
    have e_pay : getProp (overwriteField (getProp (.obj fs) "data") f x) "payment"
        = getProp (getProp (.obj fs) "data") "payment" :=
      getProp_overwrite_ne _ _ _ _ hf_ne_pay
    have c1 : checkObjectShape
        (overwriteField (.obj fs) "data" (overwriteField (getProp (.obj fs) "data") f x))
        = true := rfl
    have c2 : checkEnvelopeFields
        (overwriteField (.obj fs) "data" (overwriteField (getProp (.obj fs) "data") f x))
        = true := by
      simp only [checkEnvelopeFields, e_type, e_ts]
      simpa [checkEnvelopeFields] using h2
    have c3 : checkInvoicePayTag
        (overwriteField (.obj fs) "data" (overwriteField (getProp (.obj fs) "data") f x))
        = true := by
      simp only [checkInvoicePayTag, e_type]
      simpa [checkInvoicePayTag] using h3
    have c4 : checkDataShape
        (overwriteField (.obj fs) "data" (overwriteField (getProp (.obj fs) "data") f x))
        = true := by
      simp only [checkDataShape, e_data]
      rw [hds]
      rfl
    have c5 : allFieldsPresent (getProp
        (overwriteField (.obj fs) "data" (overwriteField (getProp (.obj fs) "data") f x))
        "data") requiredDataFields = true := by
      rw [e_data]
      simp only [allFieldsPresent, List.all_eq_true]
      intro g hg
      rw [hasProp_overwrite]
      exact hall5 g hg
    have c6 : checkPaymentShape
        (overwriteField (.obj fs) "data" (overwriteField (getProp (.obj fs) "data") f x))
        = true := by
      simp only [checkPaymentShape, e_data, e_pay]
      simpa [checkPaymentShape] using h6
    have c7 : allFieldsPresent (getProp (getProp
        (overwriteField (.obj fs) "data" (overwriteField (getProp (.obj fs) "data") f x))
        "data") "payment") requiredPaymentFields = true := by
      rw [e_data, e_pay]
      exact h7
    refine ⟨(validateEnvelope_ok_iff _ _).mpr ⟨rfl, ?_⟩, ?_⟩
    · simp [envelopeChecks, updateDataField, c1, c2, c3, c4, c5, c6, c7]
    · show getProp (getProp
        (overwriteField (.obj fs) "data" (overwriteField (getProp (.obj fs) "data") f x))
        "data") f = x
      rw [e_data, hds]
      exact getProp_overwrite_self ds f x (hds ▸ hfpres)
  · intro hf
    have hpay_pres : hasProp (getProp (.obj fs) "data") "payment" = true :=
      hall5 "payment" (by simp [requiredDataFields])
    have hf_pres_pay : hasProp (getProp (getProp (.obj fs) "data") "payment") f = true :=
      hall7 f hf
    have e_data : getProp
        (overwriteField (.obj fs) "data"
          (overwriteField (getProp (.obj fs) "data") "payment"
            (overwriteField (getProp (getProp (.obj fs) "data") "payment") f x)))
        "data"
        = overwriteField (getProp (.obj fs) "data") "payment"
            (overwriteField (getProp (getProp (.obj fs) "data") "payment") f x) :=
      getProp_overwrite_self fs "data" _ hdata
    have e_type : getProp
        (overwriteField (.obj fs) "data"
          (overwriteField (getProp (.obj fs) "data") "payment"
            (overwriteField (getProp (getProp (.obj fs) "data") "payment") f x)))
        "type" = getProp (.obj fs) "type" :=
      getProp_overwrite_ne _ _ _ _ (by decide)
    have e_ts : getProp
        (overwriteField (.obj fs) "data"
          (overwriteField (getProp (.obj fs) "data") "payment"
            (overwriteField (getProp (getProp (.obj fs) "data") "payment") f x)))
        "timestamp" = getProp (.obj fs) "timestamp" :=
      getProp_overwrite_ne _ _ _ _ (by decide)
    have e_pay : getProp
        (overwriteField (getProp (.obj fs) "data") "payment"
          (overwriteField (getProp (getProp (.obj fs) "data") "payment") f x))
        "payment"
        = overwriteField (getProp (getProp (.obj fs) "data") "payment") f x := by
      rw [hds]
      exact getProp_overwrite_self ds "payment" _ (hds ▸ hpay_pres)
    have c1 : checkObjectShape
        (overwriteField (.obj fs) "data"
          (overwriteField (getProp (.obj fs) "data") "payment"
            (overwriteField (getProp (getProp (.obj fs) "data") "payment") f x)))
        = true := rfl
    have c2 : checkEnvelopeFields
        (overwriteField (.obj fs) "data"
          (overwriteField (getProp (.obj fs) "data") "payment"
            (overwriteField (getProp (getProp (.obj fs) "data") "payment") f x)))
        = true := by
      simp only [checkEnvelopeFields, e_type, e_ts]
      simpa [checkEnvelopeFields] using h2
    have c3 : checkInvoicePayTag
        (overwriteField (.obj fs) "data"
          (overwriteField (getProp (.obj fs) "data") "payment"
            (overwriteField (getProp (getProp (.obj fs) "data") "payment") f x)))
        = true := by
      simp only [checkInvoicePayTag, e_type]
      simpa [checkInvoicePayTag] using h3
    have c4 : checkDataShape
        (overwriteField (.obj fs) "data"
          (overwriteField (getProp (.obj fs) "data") "payment"
            (overwriteField (getProp (getProp (.obj fs) "data") "payment") f x)))
        = true := by
      simp only [checkDataShape, e_data]
      rw [hds]
      rfl
    have c5 : allFieldsPresent (getProp
        (overwriteField (.obj fs) "data"
          (overwriteField (getProp (.obj fs) "data") "payment"
            (overwriteField (getProp (getProp (.obj fs) "data") "payment") f x)))
        "data") requiredDataFields = true := by
      rw [e_data]
      simp only [allFieldsPresent, List.all_eq_true]
      intro g hg
      rw [hasProp_overwrite]
      exact hall5 g hg
    have c6 : checkPaymentShape
        (overwriteField (.obj fs) "data"
          (overwriteField (getProp (.obj fs) "data") "payment"
            (overwriteField (getProp (getProp (.obj fs) "data") "payment") f x)))
        = true := by
      simp only [checkPaymentShape, e_data, e_pay]
      rw [hps]
      rfl
    have c7 : allFieldsPresent (getProp (getProp
        (overwriteField (.obj fs) "data"
          (overwriteField (getProp (.obj fs) "data") "payment"
            (overwriteField (getProp (getProp (.obj fs) "data") "payment") f x)))
        "data") "payment") requiredPaymentFields = true := by
      rw [e_data, e_pay]
      simp only [allFieldsPresent, List.all_eq_true]
      intro g hg
      rw [hasProp_overwrite]
      exact hall7 g hg
    refine ⟨(validateEnvelope_ok_iff _ _).mpr ⟨rfl, ?_⟩, ?_⟩
    · simp [envelopeChecks, updatePaymentField, c1, c2, c3, c4, c5, c6, c7]
    · show getProp (getProp (getProp
        (overwriteField (.obj fs) "data"
          (overwriteField (getProp (.obj fs) "data") "payment"
            (overwriteField (getProp (getProp (.obj fs) "data") "payment") f x)))
        "data") "payment") f = x
      rw [e_data, e_pay, hps]
      exact getProp_overwrite_self ps f x (hps ▸ hf_pres_pay)

set_option maxRecDepth 10000 in
/-- C9 (witness): rebinding the required field `id` of the sample envelope to
`null` still validates, and the result carries `id = null`. -/
theorem parse_required_fields_presence_only_witness :
    validateEnvelope (updateDataField sampleEnvelope "id" JsValue.null)
      = .ok (updateDataField sampleEnvelope "id" JsValue.null)
    ∧ getProp (getProp (updateDataField sampleEnvelope "id" JsValue.null) "data") "id"
      = JsValue.null :=
  (parse_required_fields_presence_only sampleEnvelope "id" JsValue.null (by rfl)).1
    (by simp)

/-- C10: for every signature and secret, `verifyAndParseWebhook` on the empty
body raises the signature error — the empty body already fails signature
verification — and never the parser's empty-body (or any other) parse
error. -/
theorem verifyAndParse_empty_body_signature_error (sig secret : String) :
    verifyAndParseWebhook "" sig secret = .error (.signature "Invalid webhook signature")
    ∧ ∀ m, verifyAndParseWebhook "" sig secret ≠ .error (.parse m) := by
  have hv : verifyWebhookSignature "" sig secret = false := by
    unfold verifyWebhookSignature
    simp
  unfold verifyAndParseWebhook
  rw [hv]
  simp

/-- C10 (witness): the property at concrete signature and secret. -/
theorem verifyAndParse_empty_body_signature_error_witness :
    verifyAndParseWebhook "" "x" "y" = .error (.signature "Invalid webhook signature")
    ∧ ∀ m, verifyAndParseWebhook "" "x" "y" ≠ .error (.parse m) :=
  verifyAndParse_empty_body_signature_error "x" "y"
